import Mathlib

/-!
Shallow embedding of the translation-session state machine of
`src/frontend/src/App.js` (the `App` React component), and proofs of the
spec's claims about it.

The component's state is a set of React `useState` hooks; we collect them in
one `SessionState` record. Each event handler of the component becomes a
function on `SessionState`. Asynchronous remote calls are modelled by passing
the outcome of the call as an explicit argument, and each submit-like handler
returns, besides the new state, a `Bool` recording whether a request to the
remote translate endpoint was issued during the handler's run.

The spec reframes the component's boolean/nullable state as a sum-typed
`phase`; we derive `phase` from the state exactly the way the component's
render decides what to show: the spinner while `loading`, the result area
when a translation is held, otherwise the error banner when a non-empty
error message is present, else the idle placeholder.
-/

namespace AppJs

/-- One alternative translation as returned by the remote service:
`{ translation, context, explanation }` (read in the alternatives list of the
render, lines 324-357 of App.js). -/
structure Alternative where
  translation : String
  context : String
  explanation : String
deriving Repr, DecidableEq

/-- The payload stored in the `translation` state variable. The component
stores both the `/api/translate` response (`data`) and a clicked history item
(`item`) in the same variable, so we use one record carrying every field the
component reads: `text`, `from_lang`, `to_lang`, `main_translation`,
`alternatives`, `timestamp`, `id`. -/
structure TranslationData where
  id : String
  text : String
  from_lang : String
  to_lang : String
  main_translation : String
  alternatives : List Alternative
  timestamp : String
deriving Repr, DecidableEq

/-- The `useState` hooks of the `App` component (lines 5-14 of App.js),
collected into a record: `sourceText`, `translation`, `fromLang`, `toLang`,
`loading`, `history`, `showHistory`, `selectedAlternative`, `error`.
(The `languages` catalog is read-only during a session and no claim touches
it, so it is omitted.) -/
structure SessionState where
  sourceText : String
  translation : Option TranslationData
  fromLang : String
  toLang : String
  loading : Bool
  history : List TranslationData
  showHistory : Bool
  selectedAlternative : String
  error : String
deriving Repr, DecidableEq

/-- The spec's sum-typed session phase: Idle, Loading, Result or Error. -/
inductive Phase where
  | Idle
  | Loading
  | Result
  | Error
deriving Repr, DecidableEq

/-- Phase derived from the component state, following the render logic of
App.js: the output panel shows the spinner while `loading` (line 243), the
result when a translation is held, and the error banner (line 282) stands
for the Error phase when no result is held; otherwise the session is Idle. -/
def phase (s : SessionState) : Phase :=
  if s.loading then Phase.Loading
  else if s.translation.isSome then Phase.Result
  else if s.error = "" then Phase.Idle
  else Phase.Error

/-- JavaScript's `x || fallback` on an optional string field: the fallback is
used when the field is absent or empty (falsy). Used for
`errorData.detail || 'Çeviri başarısız'` (line 94 of App.js). -/
def jsOr (x : Option String) (fallback : String) : String :=
  match x with
  | some v => if v = "" then fallback else v
  | none => fallback

/-- Outcome of the `fetch` to `/api/translate` as the `try` block of
`handleTranslate` observes it: `success data` when the response is ok and
parses, `httpError detail` when `response.ok` is false (with
`errorData.detail` when present), `fetchError message` when the fetch or the
JSON parsing throws (the thrown error's message). -/
inductive RemoteOutcome where
  | success (data : TranslationData)
  | httpError (detail : Option String)
  | fetchError (message : String)
deriving Repr, DecidableEq

/-- Outcome of a bare `await fetch(...)` whose status is never checked:
`resolved ok` when an HTTP response arrived (`ok` is `response.ok`, which
`clearHistory` ignores), `rejected` when the promise rejected (network-level
failure, caught and logged). -/
inductive FetchOutcome where
  | resolved (ok : Bool)
  | rejected
deriving Repr, DecidableEq

/-- JavaScript's `!str.trim()` test: true exactly when the string is empty
or consists solely of whitespace, since trimming strips leading and trailing
whitespace and the result is empty precisely when every character is
whitespace. Embedded as the all-whitespace check so that it evaluates in the
kernel. -/
def trimIsEmpty (str : String) : Bool :=
  str.data.all Char.isWhitespace

/-- The three validation checks at the top of `handleTranslate`
(lines 60-73 of App.js), in source order, each with its message; `none`
means validation passed. -/
def validationError (s : SessionState) : Option String :=
  if trimIsEmpty s.sourceText then some "Lütfen çevrilecek metni girin"
  else if s.fromLang = s.toLang then some "Kaynak ve hedef dil aynı olamaz"
  else if s.sourceText.length > 5000 then some "Metin çok uzun (maksimum 5000 karakter)"
  else none

/-- Effect of the fire-and-forget `fetchHistory()` refresh (lines 49-57 of
App.js): on success the history becomes `data.translations || []` (the
argument of `some`), on failure the error is logged and history is left
unchanged. -/
def fetchHistoryApply (h : List TranslationData) (r : Option (List TranslationData)) :
    List TranslationData :=
  match r with
  | some translations => translations
  | none => h

/-- `handleTranslate` (lines 59-106 of App.js). Validation failures set the
error message and return without touching anything else. Otherwise the
handler sets `loading`, clears `error` and `translation`, issues the remote
request (recorded in the returned `Bool`), and folds in the outcome: on
success it stores the data, selects its main translation and refreshes the
history; on a non-ok response the caught message is
`errorData.detail || 'Çeviri başarısız'`; on a thrown fetch/parse error it is
the error's message. `finally` resets `loading`. Note the handler performs
no check of `s.loading`. -/
def handleTranslate (s : SessionState) (outcome : RemoteOutcome)
    (histResult : Option (List TranslationData)) : SessionState × Bool :=
  match validationError s with
  | some msg => ({ s with error := msg }, false)
  | none =>
    let s1 : SessionState := { s with loading := true, error := "", translation := none }
    match outcome with
    | RemoteOutcome.success data =>
        ({ s1 with translation := some data,
                   selectedAlternative := data.main_translation,
                   history := fetchHistoryApply s1.history histResult,
                   loading := false }, true)
    | RemoteOutcome.httpError detail =>
        ({ s1 with error := jsOr detail "Çeviri başarısız", loading := false }, true)
    | RemoteOutcome.fetchError message =>
        ({ s1 with error := message, loading := false }, true)

/-- The keyboard shortcut handler (lines 27-32 of App.js): on
Ctrl+Enter or Cmd+Enter it calls `handleTranslate` unconditionally; any
other key is ignored. It performs no loading or emptiness check of its own. -/
def handleKeyPress (s : SessionState) (ctrlKey metaKey : Bool) (key : String)
    (outcome : RemoteOutcome) (histResult : Option (List TranslationData)) :
    SessionState × Bool :=
  if (ctrlKey || metaKey) && key = "Enter" then handleTranslate s outcome histResult
  else (s, false)

/-- A click of the translate button (lines 262-265 of App.js): the button is
rendered with `disabled={loading || !sourceText.trim()}`, so a click reaches
`handleTranslate` only when it is enabled. -/
def clickTranslate (s : SessionState) (outcome : RemoteOutcome)
    (histResult : Option (List TranslationData)) : SessionState × Bool :=
  if s.loading || trimIsEmpty s.sourceText then (s, false)
  else handleTranslate s outcome histResult

/-- `swapLanguages` (lines 108-119 of App.js): always exchanges
`fromLang`/`toLang`; when a translation is held it additionally moves the
current `selectedAlternative` into `sourceText`, clears the translation and
clears the selection. -/
def swapLanguages (s : SessionState) : SessionState :=
  let s1 : SessionState := { s with fromLang := s.toLang, toLang := s.fromLang }
  match s.translation with
  | some _ =>
      { s1 with sourceText := s.selectedAlternative,
                translation := none,
                selectedAlternative := "" }
  | none => s1

/-- `clearHistory` (lines 121-128 of App.js): `await fetch(DELETE)` then
`setHistory([])`. The response status is never inspected, so the local list
is emptied whenever the fetch resolves (any HTTP status); if the fetch
rejects, the catch block only logs and the state is unchanged. -/
def clearHistory (s : SessionState) (outcome : FetchOutcome) : SessionState :=
  match outcome with
  | FetchOutcome.resolved _ => { s with history := [] }
  | FetchOutcome.rejected => s

/-- `loadHistoryItem` (lines 130-137 of App.js): replaces `sourceText`, the
language pair, the stored translation and the selection wholesale from the
record and hides the history panel. Its body contains no fetch, so the
returned request flag is `false` by construction of the source. -/
def loadHistoryItem (s : SessionState) (item : TranslationData) : SessionState × Bool :=
  ({ s with sourceText := item.text,
            fromLang := item.from_lang,
            toLang := item.to_lang,
            translation := some item,
            selectedAlternative := item.main_translation,
            showHistory := false }, false)

/-- Clicking an alternative card (lines 300 and 330 of App.js): the click
handler is the raw setter `setSelectedAlternative(text)`; no membership
check against the known alternatives is performed. -/
def selectAlternative (s : SessionState) (t : String) : SessionState :=
  { s with selectedAlternative := t }

/-- The textarea's `onChange` (line 218 of App.js): the raw setter
`setSourceText(e.target.value)`. -/
def editText (s : SessionState) (t : String) : SessionState :=
  { s with sourceText := t }

/-- The source-language select's `onChange` (line 171 of App.js): the raw
setter `setFromLang(e.target.value)`. -/
def editFromLang (s : SessionState) (l : String) : SessionState :=
  { s with fromLang := l }

/-- The target-language select's `onChange` (line 190 of App.js): the raw
setter `setToLang(e.target.value)`. -/
def editToLang (s : SessionState) (l : String) : SessionState :=
  { s with toLang := l }

/-! Concrete states used by the counterexamples and witnesses. -/

/-- A concrete translation record, shaped like the spec's worked example. -/
def demoData : TranslationData :=
  { id := "1", text := "merhaba", from_lang := "tr", to_lang := "en",
    main_translation := "hello",
    alternatives := [{ translation := "hi", context := "informal",
                       explanation := "casual greeting" }],
    timestamp := "2024-01-01T00:00:00Z" }

/-- A quiescent session right after a successful translation: a result is
held and selected, no error, not loading. -/
def sAfterSuccess : SessionState :=
  { sourceText := "merhaba", translation := some demoData,
    fromLang := "tr", toLang := "en", loading := false,
    history := [demoData], showHistory := false,
    selectedAlternative := "hello", error := "" }

/-- A session with a request in flight: `loading` is true, valid input. -/
def sLoading : SessionState :=
  { sourceText := "merhaba", translation := none,
    fromLang := "tr", toLang := "en", loading := true,
    history := [], showHistory := false,
    selectedAlternative := "", error := "" }

/-- A quiescent session holding a result together with a pending validation
error message: reachable from `sAfterSuccess` by setting the target language
equal to the source and clicking the translate button, which fails the
equal-pair check and sets the error while keeping the result. -/
def sResultWithError : SessionState :=
  { sourceText := "merhaba", translation := some demoData,
    fromLang := "tr", toLang := "tr", loading := false,
    history := [demoData], showHistory := false,
    selectedAlternative := "hello", error := "Kaynak ve hedef dil aynı olamaz" }

/-- The fallback service-error message is non-empty, and `jsOr` never
returns the empty string when its fallback is non-empty. -/
theorem jsOr_ne_empty (x : Option String) (fallback : String)
    (hf : fallback ≠ "") : jsOr x fallback ≠ "" := by
  cases x with
  | none => simpa [jsOr] using hf
  | some v =>
      by_cases hv : v = ""
      · simpa [jsOr, hv] using hf
      · simp [jsOr, hv]

/-- A quiescent session whose text is whitespace-only, used to witness the
validation claims. -/
def sEmptyText : SessionState :=
  { sourceText := "   ", translation := none,
    fromLang := "tr", toLang := "en", loading := false,
    history := [], showHistory := false,
    selectedAlternative := "", error := "" }

/-- Claim C3: whenever the text is empty or whitespace-only, or the source
language equals the target language, or the text exceeds 5000 characters,
submit sets one of the three local validation messages and issues no remote
request. -/
theorem submit_validation_rejects_locally (s : SessionState)
    (outcome : RemoteOutcome) (histResult : Option (List TranslationData))
    (h : trimIsEmpty s.sourceText = true ∨ s.fromLang = s.toLang
         ∨ s.sourceText.length > 5000) :
    (handleTranslate s outcome histResult).2 = false
    ∧ ((handleTranslate s outcome histResult).1.error = "Lütfen çevrilecek metni girin"
       ∨ (handleTranslate s outcome histResult).1.error = "Kaynak ve hedef dil aynı olamaz"
       ∨ (handleTranslate s outcome histResult).1.error
           = "Metin çok uzun (maksimum 5000 karakter)") := by
  by_cases h1 : trimIsEmpty s.sourceText = true
  · simp [handleTranslate, validationError, h1]
  by_cases h2 : s.fromLang = s.toLang
  · simp [handleTranslate, validationError, h1, h2]
  by_cases h3 : s.sourceText.length > 5000
  · simp [handleTranslate, validationError, h1, h2, h3]
  · rcases h with h | h | h
    · exact absurd h h1
    · exact absurd h h2
    · exact absurd h h3

/-- Witness for claim C3 at the whitespace-only input. -/
theorem submit_validation_rejects_locally_witness :
    (handleTranslate sEmptyText (RemoteOutcome.httpError none) none).2 = false
    ∧ ((handleTranslate sEmptyText (RemoteOutcome.httpError none) none).1.error
         = "Lütfen çevrilecek metni girin"
       ∨ (handleTranslate sEmptyText (RemoteOutcome.httpError none) none).1.error
           = "Kaynak ve hedef dil aynı olamaz"
       ∨ (handleTranslate sEmptyText (RemoteOutcome.httpError none) none).1.error
           = "Metin çok uzun (maksimum 5000 karakter)") :=
  submit_validation_rejects_locally sEmptyText (RemoteOutcome.httpError none) none
    (Or.inl (by decide))

/-- Claim C10: a submit failing validation changes only the error message —
no request is issued and sourceText, the language pair, the stored
translation, the selection, the loading flag, the history and the history
toggle are all unchanged; in particular a prior result survives intact. -/
theorem submit_validation_changes_only_error (s : SessionState)
    (outcome : RemoteOutcome) (histResult : Option (List TranslationData))
    (h : validationError s ≠ none) :
    (handleTranslate s outcome histResult).2 = false
    ∧ (handleTranslate s outcome histResult).1.sourceText = s.sourceText
    ∧ (handleTranslate s outcome histResult).1.fromLang = s.fromLang
    ∧ (handleTranslate s outcome histResult).1.toLang = s.toLang
    ∧ (handleTranslate s outcome histResult).1.translation = s.translation
    ∧ (handleTranslate s outcome histResult).1.selectedAlternative = s.selectedAlternative
    ∧ (handleTranslate s outcome histResult).1.loading = s.loading
    ∧ (handleTranslate s outcome histResult).1.history = s.history
    ∧ (handleTranslate s outcome histResult).1.showHistory = s.showHistory
    ∧ (handleTranslate s outcome histResult).1.error = (validationError s).getD "" := by
  cases heq : validationError s with
  | none => exact absurd heq h
  | some msg => simp [handleTranslate, heq]

/-- Witness for claim C10 at a session holding a prior result whose language
pair has been set equal: only the error message changes, the prior result
survives. -/
theorem submit_validation_changes_only_error_witness :
    (handleTranslate sResultWithError (RemoteOutcome.httpError none) none).2 = false
    ∧ (handleTranslate sResultWithError (RemoteOutcome.httpError none) none).1.sourceText
        = sResultWithError.sourceText
    ∧ (handleTranslate sResultWithError (RemoteOutcome.httpError none) none).1.fromLang
        = sResultWithError.fromLang
    ∧ (handleTranslate sResultWithError (RemoteOutcome.httpError none) none).1.toLang
        = sResultWithError.toLang
    ∧ (handleTranslate sResultWithError (RemoteOutcome.httpError none) none).1.translation
        = sResultWithError.translation
    ∧ (handleTranslate sResultWithError
         (RemoteOutcome.httpError none) none).1.selectedAlternative
        = sResultWithError.selectedAlternative
    ∧ (handleTranslate sResultWithError (RemoteOutcome.httpError none) none).1.loading
        = sResultWithError.loading
    ∧ (handleTranslate sResultWithError (RemoteOutcome.httpError none) none).1.history
        = sResultWithError.history
    ∧ (handleTranslate sResultWithError (RemoteOutcome.httpError none) none).1.showHistory
        = sResultWithError.showHistory
    ∧ (handleTranslate sResultWithError (RemoteOutcome.httpError none) none).1.error
        = (validationError sResultWithError).getD "" :=
  submit_validation_changes_only_error sResultWithError (RemoteOutcome.httpError none) none
    (by decide)

/-- Claim C7: after a submit that passes validation and whose remote call
succeeds, the data is stored as the result, the selection equals its main
translation, and the session is in the Result phase. -/
theorem submit_success_selects_main (s : SessionState) (data : TranslationData)
    (histResult : Option (List TranslationData)) (h : validationError s = none) :
    (handleTranslate s (RemoteOutcome.success data) histResult).1.translation = some data
    ∧ (handleTranslate s (RemoteOutcome.success data) histResult).1.selectedAlternative
        = data.main_translation
    ∧ phase (handleTranslate s (RemoteOutcome.success data) histResult).1 = Phase.Result := by
  simp [handleTranslate, h, phase]

/-- A fresh quiescent session with valid input, before its first submit. -/
def sIdleValid : SessionState :=
  { sourceText := "merhaba", translation := none,
    fromLang := "tr", toLang := "en", loading := false,
    history := [], showHistory := false,
    selectedAlternative := "", error := "" }

/-- Witness for claim C7 at the spec's worked example input. -/
theorem submit_success_selects_main_witness :
    (handleTranslate sIdleValid (RemoteOutcome.success demoData) none).1.translation
        = some demoData
    ∧ (handleTranslate sIdleValid
         (RemoteOutcome.success demoData) none).1.selectedAlternative
        = demoData.main_translation
    ∧ phase (handleTranslate sIdleValid
         (RemoteOutcome.success demoData) none).1 = Phase.Result :=
  submit_success_selects_main sIdleValid demoData none (by decide)

/-- Claim C8: selecting x and then y leaves the selection equal to y and the
stored result unchanged, for arbitrary strings. -/
theorem select_then_select (s : SessionState) (x y : String) :
    (selectAlternative (selectAlternative s x) y).selectedAlternative = y
    ∧ (selectAlternative (selectAlternative s x) y).translation = s.translation := by
  simp [selectAlternative]

/-- Claim C9: editing the text or either language of the pair updates only
the edited field — the phase, the error message, the stored translation, the
selection, the loading flag, the history and the history toggle are
unchanged. -/
theorem edit_updates_only_edited_field (s : SessionState) (t l : String) :
    (phase (editText s t) = phase s
      ∧ (editText s t).sourceText = t
      ∧ (editText s t).error = s.error
      ∧ (editText s t).translation = s.translation
      ∧ (editText s t).selectedAlternative = s.selectedAlternative
      ∧ (editText s t).fromLang = s.fromLang
      ∧ (editText s t).toLang = s.toLang
      ∧ (editText s t).loading = s.loading
      ∧ (editText s t).history = s.history
      ∧ (editText s t).showHistory = s.showHistory)
    ∧ (phase (editFromLang s l) = phase s
      ∧ (editFromLang s l).fromLang = l
      ∧ (editFromLang s l).error = s.error
      ∧ (editFromLang s l).translation = s.translation
      ∧ (editFromLang s l).sourceText = s.sourceText
      ∧ (editFromLang s l).selectedAlternative = s.selectedAlternative
      ∧ (editFromLang s l).toLang = s.toLang
      ∧ (editFromLang s l).loading = s.loading)
    ∧ (phase (editToLang s l) = phase s
      ∧ (editToLang s l).toLang = l
      ∧ (editToLang s l).error = s.error
      ∧ (editToLang s l).translation = s.translation
      ∧ (editToLang s l).sourceText = s.sourceText
      ∧ (editToLang s l).selectedAlternative = s.selectedAlternative
      ∧ (editToLang s l).fromLang = s.fromLang
      ∧ (editToLang s l).loading = s.loading) := by
  simp [editText, editFromLang, editToLang, phase]

/-- Claim C5: loading a history record issues no network call, replaces the
text, the pair, the result and the selection wholesale from the record, and —
when no unrelated request is in flight — leaves the session in the Result
phase. -/
theorem loadHistoryItem_hydrates_without_network (s : SessionState)
    (item : TranslationData) :
    (loadHistoryItem s item).2 = false
    ∧ (loadHistoryItem s item).1.sourceText = item.text
    ∧ (loadHistoryItem s item).1.fromLang = item.from_lang
    ∧ (loadHistoryItem s item).1.toLang = item.to_lang
    ∧ (loadHistoryItem s item).1.translation = some item
    ∧ (loadHistoryItem s item).1.selectedAlternative = item.main_translation
    ∧ (s.loading = false → phase (loadHistoryItem s item).1 = Phase.Result) := by
  refine ⟨rfl, rfl, rfl, rfl, rfl, rfl, ?_⟩
  intro h
  simp [loadHistoryItem, phase, h]

/-- Witness for claim C5 at a concrete quiescent session and record. -/
theorem loadHistoryItem_hydrates_without_network_witness :
    (loadHistoryItem sAfterSuccess demoData).2 = false
    ∧ (loadHistoryItem sAfterSuccess demoData).1.selectedAlternative
        = demoData.main_translation
    ∧ phase (loadHistoryItem sAfterSuccess demoData).1 = Phase.Result :=
  ⟨(loadHistoryItem_hydrates_without_network sAfterSuccess demoData).1,
   (loadHistoryItem_hydrates_without_network sAfterSuccess demoData).2.2.2.2.2.1,
   (loadHistoryItem_hydrates_without_network sAfterSuccess demoData).2.2.2.2.2.2 rfl⟩

/-- Claim C1 is false as stated: from a session holding the last good result,
a submit that passes validation and whose remote call fails does not leave
the stored result untouched — the handler cleared it at initiation, so the
result value ends as `none`. -/
theorem submit_remote_failure_cex :
    validationError sAfterSuccess = none
    ∧ sAfterSuccess.translation = some demoData
    ∧ (handleTranslate sAfterSuccess
         (RemoteOutcome.httpError none) none).1.translation = none
    ∧ (handleTranslate sAfterSuccess (RemoteOutcome.httpError none) none).1.translation
        ≠ sAfterSuccess.translation := by
  refine ⟨by decide, rfl, rfl, by decide⟩

/-- Claim C1 amended: a submit that passes validation clears the stored
result at initiation, so after a failed remote call the result value is
`none` rather than the prior result; the previously displayed output string
(the selection) is untouched, and the phase is Error with the
service-provided message or the generic fallback when absent or empty. -/
theorem submit_remote_failure_amended (s : SessionState) (detail : Option String)
    (histResult : Option (List TranslationData)) (h : validationError s = none) :
    (handleTranslate s (RemoteOutcome.httpError detail) histResult).1.translation = none
    ∧ (handleTranslate s (RemoteOutcome.httpError detail) histResult).1.selectedAlternative
        = s.selectedAlternative
    ∧ (handleTranslate s (RemoteOutcome.httpError detail) histResult).1.error
        = jsOr detail "Çeviri başarısız"
    ∧ phase (handleTranslate s (RemoteOutcome.httpError detail) histResult).1
        = Phase.Error := by
  have hne : jsOr detail "Çeviri başarısız" ≠ "" := jsOr_ne_empty detail _ (by decide)
  simp [handleTranslate, h, phase, hne]

/-- Witness for the amended claim C1, at the session holding the last good
result and a service failure with no message. -/
theorem submit_remote_failure_amended_witness :
    (handleTranslate sAfterSuccess
        (RemoteOutcome.httpError none) none).1.translation = none
    ∧ (handleTranslate sAfterSuccess
         (RemoteOutcome.httpError none) none).1.selectedAlternative
        = sAfterSuccess.selectedAlternative
    ∧ (handleTranslate sAfterSuccess (RemoteOutcome.httpError none) none).1.error
        = jsOr none "Çeviri başarısız"
    ∧ phase (handleTranslate sAfterSuccess (RemoteOutcome.httpError none) none).1
        = Phase.Error :=
  submit_remote_failure_amended sAfterSuccess none none (by decide)

/-- Claim C2 is false as stated: with a request in flight (phase Loading), a
Ctrl+Enter submit is neither rejected nor a no-op — it issues a second remote
request and changes the state. -/
theorem submit_while_loading_cex :
    phase sLoading = Phase.Loading
    ∧ (handleKeyPress sLoading true false "Enter"
         (RemoteOutcome.success demoData) none).2 = true
    ∧ (handleKeyPress sLoading true false "Enter"
         (RemoteOutcome.success demoData) none).1 ≠ sLoading := by
  refine ⟨rfl, by decide, by decide⟩

/-- Claim C2 amended: the loading guard exists only at the translate button,
whose disabled attribute makes a click while loading a no-op; the submit
handler itself performs no loading check, so a submit reaching it via the
keyboard shortcut while phase is Loading proceeds and, when the input passes
validation, issues a second remote request. -/
theorem submit_while_loading_amended (s : SessionState) (outcome : RemoteOutcome)
    (histResult : Option (List TranslationData)) (hl : s.loading = true) :
    clickTranslate s outcome histResult = (s, false)
    ∧ (validationError s = none →
        (handleKeyPress s true false "Enter" outcome histResult).2 = true) := by
  constructor
  · simp [clickTranslate, hl]
  · intro hv
    cases outcome <;> simp [handleKeyPress, handleTranslate, hv]

/-- Witness for the amended claim C2 at the in-flight session. -/
theorem submit_while_loading_amended_witness :
    clickTranslate sLoading (RemoteOutcome.httpError none) none = (sLoading, false)
    ∧ (handleKeyPress sLoading true false "Enter"
         (RemoteOutcome.httpError none) none).2 = true :=
  ⟨(submit_while_loading_amended sLoading (RemoteOutcome.httpError none) none rfl).1,
   (submit_while_loading_amended sLoading (RemoteOutcome.httpError none) none rfl).2
     (by decide)⟩

/-- Claim C4 is false as stated: when the DELETE fetch rejects (network-level
failure), `clearHistory` leaves the non-empty local history list untouched
rather than emptying it optimistically. -/
theorem clearHistory_cex :
    (clearHistory sAfterSuccess FetchOutcome.rejected).history = [demoData]
    ∧ [demoData] ≠ ([] : List TranslationData) :=
  ⟨rfl, by decide⟩

/-- Claim C4 amended: the local history is emptied whenever the DELETE fetch
resolves — the HTTP status is never inspected, so even a server-reported
failure clears it — but a rejected fetch (network failure) is only logged and
leaves the whole state, the local list included, unchanged. -/
theorem clearHistory_amended (s : SessionState) (ok : Bool) :
    (clearHistory s (FetchOutcome.resolved ok)).history = []
    ∧ clearHistory s FetchOutcome.rejected = s :=
  ⟨rfl, rfl⟩

/-- Claim C6 is false as stated: from a session holding a result together
with a pending validation error, the first swap does not return the phase to
Idle — the error message is left in place, so the phase is Error. -/
theorem swapLanguages_cex :
    sResultWithError.translation.isSome = true
    ∧ phase (swapLanguages sResultWithError) = Phase.Error
    ∧ phase (swapLanguages sResultWithError) ≠ Phase.Idle := by
  refine ⟨rfl, by decide, by decide⟩

/-- Claim C6 amended: two successive swaps restore the original language
pair; with no result held a swap is a pure pair exchange with no other side
effect; with a result held the first swap moves the current selection into
the source text, clears the result and the selection, and returns the phase
to Idle provided no error message is pending (the swap leaves the error
message in place, so with a stale error the phase is Error instead). -/
theorem swapLanguages_amended (s : SessionState) :
    ((swapLanguages (swapLanguages s)).fromLang = s.fromLang
      ∧ (swapLanguages (swapLanguages s)).toLang = s.toLang)
    ∧ (s.translation = none →
        swapLanguages s = { s with fromLang := s.toLang, toLang := s.fromLang })
    ∧ (s.translation.isSome = true →
        (swapLanguages s).sourceText = s.selectedAlternative
        ∧ (swapLanguages s).translation = none
        ∧ (swapLanguages s).selectedAlternative = ""
        ∧ (s.loading = false → s.error = "" →
            phase (swapLanguages s) = Phase.Idle)) := by
  cases h : s.translation with
  | none =>
      refine ⟨⟨?_, ?_⟩, fun _ => ?_, fun hs => ?_⟩
      · simp [swapLanguages, h]
      · simp [swapLanguages, h]
      · simp [swapLanguages, h]
      · simp [h] at hs
  | some d =>
      refine ⟨⟨?_, ?_⟩, fun hn => ?_, fun _ => ⟨?_, ?_, ?_, fun hl he => ?_⟩⟩
      · simp [swapLanguages, h]
      · simp [swapLanguages, h]
      · simp [h] at hn
      · simp [swapLanguages, h]
      · simp [swapLanguages, h]
      · simp [swapLanguages, h]
      · simp [swapLanguages, h, phase, hl, he]

/-- Witness for the amended claim C6 at the session holding a fresh result:
the swap consumes the selection, clears the result and returns to Idle. -/
theorem swapLanguages_amended_witness :
    (swapLanguages sAfterSuccess).sourceText = sAfterSuccess.selectedAlternative
    ∧ (swapLanguages sAfterSuccess).translation = none
    ∧ phase (swapLanguages sAfterSuccess) = Phase.Idle :=
  ⟨((swapLanguages_amended sAfterSuccess).2.2 rfl).1,
   ((swapLanguages_amended sAfterSuccess).2.2 rfl).2.1,
   ((swapLanguages_amended sAfterSuccess).2.2 rfl).2.2.2 rfl rfl⟩

end AppJs
